import Mathlib

/-!
Verification of the dual-instance overlapping speech-recognition scheduler
embedded in the page script of
src/google_speech_version/reimplemented/modules/speech_handler_v2.py.

The page script is a single-threaded, callback-driven state machine:
two engine instances (A and B), a recurring switch interval timer, one-shot
timeouts for the overlap hand-off and for restarts after an unexpected end,
and a transcript buffer guarded by the active-instance gate.

The embedding below is a shallow one: the mutable script state becomes the
structure `S`, each script function (startRec, stopRec, clearText,
switchInstances, the onresult / onerror / onend handlers, and the timer
callbacks) becomes a Lean function `S → S`, and the event loop becomes a
fold of an event list over `step`.  JavaScript strings are embedded as
`List Char` so that every definition evaluates by kernel reduction.
-/

set_option maxRecDepth 10000

namespace SpeechV2

/-- Identity of a recognition instance slot, `A` or `B`. -/
inductive InstanceId where
  | A
  | B
deriving DecidableEq, Repr

/-- The other slot: used by switchInstances to pick the new instance. -/
def InstanceId.other : InstanceId → InstanceId
  | .A => .B
  | .B => .A

/-- One entry of the result list the engine delivers to onresult:
`result[0].transcript` and `result.isFinal`. -/
structure SpeechResult where
  transcript : List Char
  isFinal : Bool
deriving DecidableEq, Repr

/-- Per-instance state: the stored result cursor `recognition.lastResultIndex`
and whether the engine session is open (a second `recognition.start()` while
open throws, which the script catches). -/
structure RecInstance where
  lastResultIndex : Nat
  started : Bool
deriving DecidableEq, Repr

/-- The CONFIG constants read by the script. -/
structure Config where
  maxSessionTime : Nat
  overlapTime : Nat
  minRestartDelay : Nat
deriving DecidableEq, Repr

/-- The literal CONFIG object of the page script. -/
def CONFIG : Config := { maxSessionTime := 55000, overlapTime := 2000, minRestartDelay := 50 }

/-- Calls the script makes into the engine (recognition.start / stop / abort),
recorded in order of invocation. -/
inductive EngineCall where
  | start (inst : InstanceId)
  | stop (inst : InstanceId)
  | abort (inst : InstanceId)
deriving DecidableEq, Repr

/-- What a pending one-shot timeout will do when it fires: the overlap
hand-off scheduled by switchInstances (capturing the old and new instance),
or the restart scheduled by the onend handler. -/
inductive PendingKind where
  | overlap (oldI newI : InstanceId)
  | restart (inst : InstanceId)
deriving DecidableEq, Repr

/-- A pending setTimeout: its numeric handle, its delay in ms, and its
callback. -/
structure Pending where
  handle : Nat
  delay : Nat
  kind : PendingKind
deriving DecidableEq, Repr

/-- The mutable state of the page script.  `recA` and `recB` are `none`
until initRecognition has run (the recognition variables start as null).
`intervals` is the list of live interval timers (handle, period); the
script variable `switchTimer` holds only the last handle assigned, so a
leaked interval stays in `intervals` while no longer reachable from
`switchTimer`.  `sink` records the transcripts sent to the server,
`calls` the engine invocations. -/
structure S where
  isRecording : Bool
  finalText : List Char
  wordCount : Nat
  activeInstance : InstanceId
  instanceSwitches : Nat
  recA : Option RecInstance
  recB : Option RecInstance
  switchTimer : Option Nat
  intervals : List (Nat × Nat)
  pending : List Pending
  nextHandle : Nat
  sink : List (List Char)
  calls : List EngineCall
deriving DecidableEq, Repr

/-- Read the recognition object of a slot. -/
def getRec (s : S) : InstanceId → Option RecInstance
  | .A => s.recA
  | .B => s.recB

/-- Write the recognition object of a slot. -/
def setRec (s : S) (inst : InstanceId) (r : RecInstance) : S :=
  match inst with
  | .A => { s with recA := some r }
  | .B => { s with recB := some r }

/-- Embeds the JavaScript transcript.split of a one-character separator:
the auxiliary pass returns the first piece and the remaining pieces. -/
def splitCharAux (p : Char → Bool) : List Char → List Char × List (List Char)
  | [] => ([], [])
  | c :: cs =>
    let r := splitCharAux p cs
    if p c then ([], r.1 :: r.2) else (c :: r.1, r.2)

/-- All pieces of the split, in order; like JavaScript split, adjacent
separators and separators at the ends produce empty pieces, and the empty
text yields one empty piece. -/
def splitChar (p : Char → Bool) (t : List Char) : List (List Char) :=
  (splitCharAux p t).1 :: (splitCharAux p t).2

/-- Embeds the script expression transcript.split of a single space. -/
def splitSpace (t : List Char) : List (List Char) :=
  splitChar (fun c => c = ' ') t

/-- Modelled from the spec: the count of whitespace-delimited tokens in a
text (split on whitespace, drop empty pieces).  Used only to compare the
word counting of the code against the wording of the spec; the code itself
uses `(splitSpace t).length`. -/
def specTokenCount (t : List Char) : Nat :=
  ((splitChar (fun c => c.isWhitespace) t).filter (fun w => w ≠ [])).length

/-- The active-instance gate of the onresult handler, literally:
(instanceName === A and activeInstance === A) or
(instanceName === B and activeInstance === B). -/
def isActiveGate (inst active : InstanceId) : Bool :=
  (inst = .A && active = .A) || (inst = .B && active = .B)

/-- The body of the for loop of the onresult handler for one result entry:
if the result is final and this is the active instance, append the
transcript and a space to finalText, add the split length to wordCount,
and send the transcript to the server. -/
def processResult (inst : InstanceId) (r : SpeechResult) (s : S) : S :=
  if r.isFinal then
    if isActiveGate inst s.activeInstance then
      { s with
        finalText := s.finalText ++ r.transcript ++ [' '],
        wordCount := s.wordCount + (splitSpace r.transcript).length,
        sink := s.sink ++ [r.transcript] }
    else s
  else s

/-- The onresult handler of instance `inst`: loop over the entries from the
stored cursor to the end of the delivered list, then set the cursor to the
length of the list.  If the recognition object does not exist no handler is
attached and nothing happens. -/
def onresultStep (s : S) (inst : InstanceId) (results : List SpeechResult) : S :=
  match getRec s inst with
  | none => s
  | some rec =>
    let s1 := (results.drop rec.lastResultIndex).foldl
      (fun acc r => processResult inst r acc) s
    setRec s1 inst { rec with lastResultIndex := results.length }

/-- The onend handler of instance `inst`: the engine session is now closed;
if still recording and this is the active instance, schedule a restart of
the same recognition object after CONFIG.minRestartDelay. -/
def onendStep (cfg : Config) (s : S) (inst : InstanceId) : S :=
  match getRec s inst with
  | none => s
  | some rec =>
    let s1 := setRec s inst { rec with started := false }
    if s1.isRecording && inst = s1.activeInstance then
      { s1 with
        pending := s1.pending ++ [⟨s1.nextHandle, cfg.minRestartDelay, .restart inst⟩],
        nextHandle := s1.nextHandle + 1 }
    else s1

/-- The restart timeout callback: if still recording, try recognition.start
(which throws, and is caught, when the session is already open). -/
def fireRestart (s : S) (inst : InstanceId) : S :=
  if s.isRecording then
    match getRec s inst with
    | none => s
    | some rec =>
      let s1 := { s with calls := s.calls ++ [.start inst] }
      if rec.started then s1
      else setRec s1 inst { rec with started := true }
  else s

/-- The overlap timeout callback scheduled by switchInstances: flip the
active instance to the captured new one, increment the switch counter, then
stop (not abort) the captured old recognition object. -/
def fireOverlap (s : S) (oldI newI : InstanceId) : S :=
  let s1 := { s with activeInstance := newI, instanceSwitches := s.instanceSwitches + 1 }
  match getRec s1 oldI with
  | none => s1
  | some _ => { s1 with calls := s1.calls ++ [.stop oldI] }

/-- switchInstances: if recording, start the new (inactive) recognition
object; when that start call succeeds, schedule the overlap hand-off after
CONFIG.overlapTime.  When the start call throws (session already open, or
the object is null) the catch swallows it and no hand-off is scheduled. -/
def switchInstances (cfg : Config) (s : S) : S :=
  if s.isRecording then
    let oldI := s.activeInstance
    let newI := oldI.other
    match getRec s newI with
    | none => s
    | some rec =>
      let s1 := { s with calls := s.calls ++ [.start newI] }
      if rec.started then s1
      else
        let s2 := setRec s1 newI { rec with started := true }
        { s2 with
          pending := s2.pending ++ [⟨s2.nextHandle, cfg.overlapTime, .overlap oldI newI⟩],
          nextHandle := s2.nextHandle + 1 }
  else s

/-- startRec: create the recognition objects when they are still null, set
isRecording, reset the active instance to A and the switch counter to zero,
then try to start instance A; when that start call succeeds, assign a fresh
recurring switch interval of CONFIG.maxSessionTime to switchTimer (the
previous interval, if any, is neither cleared nor remembered). -/
def startRec (cfg : Config) (s : S) : S :=
  let ra := s.recA.getD { lastResultIndex := 0, started := false }
  let rb := s.recB.getD { lastResultIndex := 0, started := false }
  let s1 := { s with
    recA := some ra, recB := some rb,
    isRecording := true, activeInstance := InstanceId.A,
    instanceSwitches := 0 }
  let s2 := { s1 with calls := s1.calls ++ [.start .A] }
  if ra.started then s2
  else
    let s3 := { s2 with recA := some { ra with started := true } }
    { s3 with
      intervals := s3.intervals ++ [(s3.nextHandle, cfg.maxSessionTime)],
      switchTimer := some s3.nextHandle,
      nextHandle := s3.nextHandle + 1 }

/-- stopRec: set isRecording to false, clearInterval the handle currently
held in switchTimer, then stop both recognition objects when they exist.
Pending one-shot timeouts are not touched. -/
def stopRec (s : S) : S :=
  let s1 := { s with isRecording := false }
  let s2 := { s1 with intervals := s1.intervals.filter (fun p => ¬ some p.1 = s1.switchTimer) }
  let s3 := if s2.recA.isSome then { s2 with calls := s2.calls ++ [.stop .A] } else s2
  let s4 := if s3.recB.isSome then { s3 with calls := s3.calls ++ [.stop .B] } else s3
  s4

/-- clearText: reset the transcript buffer and the word counter. -/
def clearText (s : S) : S :=
  { s with finalText := [], wordCount := 0 }

/-- A live interval with handle `h` fires: the interval callback runs
switchInstances when still recording. -/
def intervalTick (cfg : Config) (s : S) (h : Nat) : S :=
  if s.intervals.any (fun p => p.1 = h) then
    if s.isRecording then switchInstances cfg s else s
  else s

/-- A pending one-shot timeout with handle `h` fires: it is removed from the
pending list and its callback runs. -/
def fireTimeout (s : S) (h : Nat) : S :=
  match s.pending.find? (fun p => p.handle = h) with
  | none => s
  | some p =>
    let s1 := { s with pending := s.pending.eraseP (fun q => q.handle = h) }
    match p.kind with
    | .restart inst => fireRestart s1 inst
    | .overlap oldI newI => fireOverlap s1 oldI newI

/-- The events the event loop can deliver to the script: the three facade
commands, the engine callbacks, and timer firings. -/
inductive Event where
  | startCmd
  | stopCmd
  | clearCmd
  | onresult (inst : InstanceId) (results : List SpeechResult)
  | onerror (inst : InstanceId) (code : String)
  | onend (inst : InstanceId)
  | fire (h : Nat)
  | tick (h : Nat)
deriving DecidableEq, Repr

/-- One step of the event loop.  The onerror handler only logs (non-aborted
codes are written to the debug line), so it leaves the state unchanged. -/
def step (cfg : Config) (s : S) : Event → S
  | .startCmd => startRec cfg s
  | .stopCmd => stopRec s
  | .clearCmd => clearText s
  | .onresult inst rs => onresultStep s inst rs
  | .onerror _ _ => s
  | .onend inst => onendStep cfg s inst
  | .fire h => fireTimeout s h
  | .tick h => intervalTick cfg s h

/-- Run a list of events from a state. -/
def run (cfg : Config) (s : S) (evs : List Event) : S :=
  evs.foldl (step cfg) s

/-- The state of the freshly loaded page. -/
def init : S :=
  { isRecording := false, finalText := [], wordCount := 0,
    activeInstance := .A, instanceSwitches := 0,
    recA := none, recB := none, switchTimer := none,
    intervals := [], pending := [], nextHandle := 0,
    sink := [], calls := [] }

/-- The transcripts of the final entries of a result list, in order. -/
def finalsOf (l : List SpeechResult) : List (List Char) :=
  (l.filter (fun r => r.isFinal)).map (fun r => r.transcript)

/-- The text the onresult loop appends for a list of final transcripts:
each transcript followed by one space. -/
def segConcat : List (List Char) → List Char
  | [] => []
  | t :: ts => t ++ [' '] ++ segConcat ts

/-- The word-count increment of the onresult loop for a list of final
transcripts. -/
def wordSum (l : List (List Char)) : Nat :=
  (l.map (fun t => (splitSpace t).length)).sum

/-- A sequence of onresult deliveries to instance `inst` in which the engine
replays a growing cumulative result list: first `cur` is delivered, then
`cur` extended by the first extension, and so on. -/
def runGrow (cfg : Config) (inst : InstanceId) (s : S) (cur : List SpeechResult) :
    List (List SpeechResult) → S
  | [] => step cfg s (.onresult inst cur)
  | e :: es => runGrow cfg inst (step cfg s (.onresult inst cur)) (cur ++ e) es

/-- One unexpected-end-and-restart cycle of instance A: its onend fires, the
handler schedules a restart timeout, and that timeout then fires. -/
def endFireCycle (cfg : Config) (s : S) : S :=
  step cfg (step cfg s (.onend .A)) (.fire s.nextHandle)

section Helpers

lemma step_startCmd (cfg : Config) (s : S) : step cfg s .startCmd = startRec cfg s := rfl

lemma step_stopCmd (cfg : Config) (s : S) : step cfg s .stopCmd = stopRec s := rfl

lemma step_clearCmd (cfg : Config) (s : S) : step cfg s .clearCmd = clearText s := rfl

lemma step_onresult (cfg : Config) (s : S) (inst : InstanceId) (rs : List SpeechResult) :
    step cfg s (.onresult inst rs) = onresultStep s inst rs := rfl

lemma step_onerror (cfg : Config) (s : S) (inst : InstanceId) (code : String) :
    step cfg s (.onerror inst code) = s := rfl

lemma step_onend (cfg : Config) (s : S) (inst : InstanceId) :
    step cfg s (.onend inst) = onendStep cfg s inst := rfl

lemma step_fire (cfg : Config) (s : S) (h : Nat) :
    step cfg s (.fire h) = fireTimeout s h := rfl

lemma step_tick (cfg : Config) (s : S) (h : Nat) :
    step cfg s (.tick h) = intervalTick cfg s h := rfl

@[simp] lemma other_A : InstanceId.A.other = .B := rfl

@[simp] lemma other_B : InstanceId.B.other = .A := rfl

lemma other_ne (i : InstanceId) : i.other ≠ i := by cases i <;> simp [InstanceId.other]

@[simp] lemma getRec_setRec_same (s : S) (i : InstanceId) (r : RecInstance) :
    getRec (setRec s i r) i = some r := by
  cases i <;> rfl

lemma getRec_setRec_ne (s : S) {i j : InstanceId} (r : RecInstance) (h : j ≠ i) :
    getRec (setRec s i r) j = getRec s j := by
  cases i <;> cases j <;> first | rfl | exact absurd rfl h

@[simp] lemma setRec_isRecording (s : S) (i : InstanceId) (r : RecInstance) :
    (setRec s i r).isRecording = s.isRecording := by cases i <;> rfl

@[simp] lemma setRec_finalText (s : S) (i : InstanceId) (r : RecInstance) :
    (setRec s i r).finalText = s.finalText := by cases i <;> rfl

@[simp] lemma setRec_wordCount (s : S) (i : InstanceId) (r : RecInstance) :
    (setRec s i r).wordCount = s.wordCount := by cases i <;> rfl

@[simp] lemma setRec_activeInstance (s : S) (i : InstanceId) (r : RecInstance) :
    (setRec s i r).activeInstance = s.activeInstance := by cases i <;> rfl

@[simp] lemma setRec_instanceSwitches (s : S) (i : InstanceId) (r : RecInstance) :
    (setRec s i r).instanceSwitches = s.instanceSwitches := by cases i <;> rfl

@[simp] lemma setRec_switchTimer (s : S) (i : InstanceId) (r : RecInstance) :
    (setRec s i r).switchTimer = s.switchTimer := by cases i <;> rfl

@[simp] lemma setRec_intervals (s : S) (i : InstanceId) (r : RecInstance) :
    (setRec s i r).intervals = s.intervals := by cases i <;> rfl

@[simp] lemma setRec_pending (s : S) (i : InstanceId) (r : RecInstance) :
    (setRec s i r).pending = s.pending := by cases i <;> rfl

@[simp] lemma setRec_nextHandle (s : S) (i : InstanceId) (r : RecInstance) :
    (setRec s i r).nextHandle = s.nextHandle := by cases i <;> rfl

@[simp] lemma setRec_sink (s : S) (i : InstanceId) (r : RecInstance) :
    (setRec s i r).sink = s.sink := by cases i <;> rfl

@[simp] lemma setRec_calls (s : S) (i : InstanceId) (r : RecInstance) :
    (setRec s i r).calls = s.calls := by cases i <;> rfl

lemma isActiveGate_eq (i a : InstanceId) : isActiveGate i a = decide (i = a) := by
  cases i <;> cases a <;> rfl

lemma processResult_of_ne (inst : InstanceId) (r : SpeechResult) (s : S)
    (h : inst ≠ s.activeInstance) : processResult inst r s = s := by
  have hg : isActiveGate inst s.activeInstance = false := by
    rw [isActiveGate_eq]; simpa using h
  unfold processResult
  rw [hg]
  simp

lemma foldl_processResult_ne (inst : InstanceId) :
    ∀ (l : List SpeechResult) (s : S), inst ≠ s.activeInstance →
      l.foldl (fun acc r => processResult inst r acc) s = s := by
  intro l
  induction l with
  | nil => intro s _; rfl
  | cons r rs ih =>
    intro s h
    rw [List.foldl_cons, processResult_of_ne inst r s h]
    exact ih s h

lemma foldl_processResult_active (inst : InstanceId) :
    ∀ (l : List SpeechResult) (s : S), inst = s.activeInstance →
      l.foldl (fun acc r => processResult inst r acc) s =
        { s with
          finalText := s.finalText ++ segConcat (finalsOf l),
          wordCount := s.wordCount + wordSum (finalsOf l),
          sink := s.sink ++ finalsOf l } := by
  intro l
  induction l with
  | nil => intro s _; simp [segConcat, finalsOf, wordSum]
  | cons r rs ih =>
    intro s h
    have hg : isActiveGate inst s.activeInstance = true := by
      rw [isActiveGate_eq]; simpa using h
    rw [List.foldl_cons]
    by_cases hf : r.isFinal
    · have hpr : processResult inst r s =
          { s with
            finalText := s.finalText ++ r.transcript ++ [' '],
            wordCount := s.wordCount + (splitSpace r.transcript).length,
            sink := s.sink ++ [r.transcript] } := by
        unfold processResult
        rw [hf, hg]
        simp
      rw [hpr, ih _ (by simpa using h)]
      cases s
      simp [finalsOf, segConcat, wordSum, hf, List.append_assoc, Nat.add_assoc]
    · have hpr : processResult inst r s = s := by
        unfold processResult
        rw [Bool.of_not_eq_true hf]
        simp
      rw [hpr, ih s h]
      have hfo : finalsOf (r :: rs) = finalsOf rs := by
        simp [finalsOf, hf]
      rw [hfo]

lemma onresult_active (s : S) (inst : InstanceId) (rs : List SpeechResult)
    (rec : RecInstance) (hget : getRec s inst = some rec)
    (hact : inst = s.activeInstance) :
    onresultStep s inst rs =
      setRec
        { s with
          finalText := s.finalText ++ segConcat (finalsOf (rs.drop rec.lastResultIndex)),
          wordCount := s.wordCount + wordSum (finalsOf (rs.drop rec.lastResultIndex)),
          sink := s.sink ++ finalsOf (rs.drop rec.lastResultIndex) }
        inst { rec with lastResultIndex := rs.length } := by
  unfold onresultStep
  rw [hget]
  simp only []
  rw [foldl_processResult_active inst _ s hact]

lemma onresult_inactive (s : S) (inst : InstanceId) (rs : List SpeechResult)
    (rec : RecInstance) (hget : getRec s inst = some rec)
    (hact : inst ≠ s.activeInstance) :
    onresultStep s inst rs = setRec s inst { rec with lastResultIndex := rs.length } := by
  unfold onresultStep
  rw [hget]
  simp only []
  rw [foldl_processResult_ne inst _ s hact]

lemma find?_append_singleton_fresh (l : List Pending) (h d : Nat) (k : PendingKind)
    (hl : ∀ p ∈ l, p.handle ≠ h) :
    (l ++ [(⟨h, d, k⟩ : Pending)]).find? (fun p => p.handle = h) =
      some ⟨h, d, k⟩ := by
  induction l with
  | nil => simp [List.find?]
  | cons a as ih =>
    rw [List.cons_append, List.find?_cons_of_neg _ (by simpa using hl a (by simp))]
    exact ih (fun p hp => hl p (by simp [hp]))

lemma eraseP_append_singleton_fresh (l : List Pending) (h d : Nat) (k : PendingKind)
    (hl : ∀ p ∈ l, p.handle ≠ h) :
    (l ++ [(⟨h, d, k⟩ : Pending)]).eraseP (fun p => p.handle = h) = l := by
  induction l with
  | nil => simp [List.eraseP]
  | cons a as ih =>
    rw [List.cons_append, List.eraseP_cons_of_neg (by simpa using hl a (by simp))]
    rw [ih (fun p hp => hl p (by simp [hp]))]

lemma finalsOf_append (a b : List SpeechResult) :
    finalsOf (a ++ b) = finalsOf a ++ finalsOf b := by
  simp [finalsOf, List.filter_append]

lemma splitCharAux_snd_length (p : Char → Bool) :
    ∀ t : List Char, ((splitCharAux p t).2).length = t.countP p := by
  intro t
  induction t with
  | nil => rfl
  | cons c cs ih =>
    unfold splitCharAux
    by_cases h : p c <;> simp [h, ih, List.countP_cons]

lemma splitChar_length (p : Char → Bool) (t : List Char) :
    (splitChar p t).length = t.countP p + 1 := by
  simp [splitChar, splitCharAux_snd_length]

lemma stopRec_finalText (s : S) : (stopRec s).finalText = s.finalText := by
  simp only [stopRec]
  split_ifs <;> rfl

lemma stopRec_wordCount (s : S) : (stopRec s).wordCount = s.wordCount := by
  simp only [stopRec]
  split_ifs <;> rfl

lemma stopRec_pending (s : S) : (stopRec s).pending = s.pending := by
  simp only [stopRec]
  split_ifs <;> rfl

lemma stopRec_isRecording (s : S) : (stopRec s).isRecording = false := by
  simp only [stopRec]
  split_ifs <;> rfl

lemma startRec_finalText (cfg : Config) (s : S) :
    (startRec cfg s).finalText = s.finalText := by
  simp only [startRec]
  split_ifs <;> rfl

lemma startRec_wordCount (cfg : Config) (s : S) :
    (startRec cfg s).wordCount = s.wordCount := by
  simp only [startRec]
  split_ifs <;> rfl

lemma startRec_instanceSwitches (cfg : Config) (s : S) :
    (startRec cfg s).instanceSwitches = 0 := by
  simp only [startRec]
  split_ifs <;> rfl

lemma startRec_activeInstance (cfg : Config) (s : S) :
    (startRec cfg s).activeInstance = .A := by
  simp only [startRec]
  split_ifs <;> rfl

lemma startRec_isRecording (cfg : Config) (s : S) :
    (startRec cfg s).isRecording = true := by
  simp only [startRec]
  split_ifs <;> rfl

end Helpers

/-- C10: the transcript buffer and the word counter survive stopRec and a
subsequent startRec unchanged (text accumulates across recording sessions);
only clearText resets them to empty and zero, and clearText touches neither
the recording flag nor the active instance; startRec on the other hand
resets the switch counter to zero and the active instance to A on every
invocation. -/
theorem C10_buffer_frame (cfg : Config) (s : S) :
    (stopRec s).finalText = s.finalText ∧
    (stopRec s).wordCount = s.wordCount ∧
    (startRec cfg (stopRec s)).finalText = s.finalText ∧
    (startRec cfg (stopRec s)).wordCount = s.wordCount ∧
    (startRec cfg s).finalText = s.finalText ∧
    (startRec cfg s).wordCount = s.wordCount ∧
    (startRec cfg s).instanceSwitches = 0 ∧
    (startRec cfg s).activeInstance = .A ∧
    (clearText s).finalText = [] ∧
    (clearText s).wordCount = 0 ∧
    (clearText s).isRecording = s.isRecording ∧
    (clearText s).activeInstance = s.activeInstance := by
  refine ⟨stopRec_finalText s, stopRec_wordCount s, ?_, ?_, startRec_finalText cfg s,
    startRec_wordCount cfg s, startRec_instanceSwitches cfg s,
    startRec_activeInstance cfg s, rfl, rfl, rfl, rfl⟩
  · rw [startRec_finalText, stopRec_finalText]
  · rw [startRec_wordCount, stopRec_wordCount]

/-- C2: active-instance gate invariant: for a final delivered by either
instance, the transcript is appended to the buffer and forwarded to the
sink exactly when the delivering instance is the current active instance;
a final from the non-active instance is never appended nor forwarded. -/
theorem C2_active_gate (cfg : Config) (s : S) (inst : InstanceId)
    (rs : List SpeechResult) (rec : RecInstance)
    (hget : getRec s inst = some rec) :
    (step cfg s (.onresult inst rs)).finalText =
      s.finalText ++ (if inst = s.activeInstance
        then segConcat (finalsOf (rs.drop rec.lastResultIndex)) else []) ∧
    (step cfg s (.onresult inst rs)).sink =
      s.sink ++ (if inst = s.activeInstance
        then finalsOf (rs.drop rec.lastResultIndex) else []) := by
  show (onresultStep s inst rs).finalText = _ ∧ (onresultStep s inst rs).sink = _
  by_cases h : inst = s.activeInstance
  · rw [onresult_active s inst rs rec hget h, if_pos h, if_pos h]
    simp
  · rw [onresult_inactive s inst rs rec hget h, if_neg h, if_neg h]
    simp

/-- Witness for C2 at a concrete reachable state: right after startRec the
active instance is A, so a final delivered by B is dropped. -/
theorem C2_active_gate_witness :
    (getRec (run CONFIG init [.startCmd]) .B = some ⟨0, false⟩) ∧
    ((step CONFIG (run CONFIG init [.startCmd]) (.onresult .B [⟨['h', 'i'], true⟩])).finalText =
      (run CONFIG init [.startCmd]).finalText ++
        (if InstanceId.B = (run CONFIG init [.startCmd]).activeInstance
          then segConcat (finalsOf (([⟨['h', 'i'], true⟩] : List SpeechResult).drop
            (⟨0, false⟩ : RecInstance).lastResultIndex)) else []) ∧
     (step CONFIG (run CONFIG init [.startCmd]) (.onresult .B [⟨['h', 'i'], true⟩])).sink =
      (run CONFIG init [.startCmd]).sink ++
        (if InstanceId.B = (run CONFIG init [.startCmd]).activeInstance
          then finalsOf (([⟨['h', 'i'], true⟩] : List SpeechResult).drop
            (⟨0, false⟩ : RecInstance).lastResultIndex) else [])) :=
  ⟨by decide,
   C2_active_gate CONFIG (run CONFIG init [.startCmd]) .B [⟨['h', 'i'], true⟩]
     ⟨0, false⟩ (by decide)⟩

/-- C9 counterexample: the code counts words with transcript.split of a
single space, so the empty transcript raises wordCount by one although it
holds zero whitespace-delimited tokens, and a transcript with a repeated
inner space raises it by three although it holds two tokens. -/
theorem C9_word_count_cex :
    (run CONFIG init [.startCmd, .onresult .A [⟨[], true⟩]]).wordCount = 1 ∧
    specTokenCount [] = 0 ∧
    (run CONFIG init [.startCmd, .onresult .A [⟨['a', ' ', ' ', 'b'], true⟩]]).wordCount = 3 ∧
    specTokenCount ['a', ' ', ' ', 'b'] = 2 := by
  decide

/-- C9 amended: appending a final from the active instance grows the buffer
by the transcript plus a single-space separator, and wordCount grows by the
length of the transcript split on single spaces, i.e. the number of space
characters plus one.  This equals the whitespace-token count only for
nonempty transcripts without leading, trailing or repeated spaces; the
empty transcript contributes one, not zero. -/
theorem C9_word_count_amended (cfg : Config) (s : S) (t : List Char)
    (rec : RecInstance)
    (hget : getRec s s.activeInstance = some rec)
    (hcur : rec.lastResultIndex = 0) :
    (step cfg s (.onresult s.activeInstance [⟨t, true⟩])).finalText =
      s.finalText ++ t ++ [' '] ∧
    (step cfg s (.onresult s.activeInstance [⟨t, true⟩])).wordCount =
      s.wordCount + (splitSpace t).length ∧
    (splitSpace t).length = t.countP (fun c => c = ' ') + 1 := by
  rw [step_onresult, onresult_active s s.activeInstance [⟨t, true⟩] rec hget rfl, hcur]
  refine ⟨?_, ?_, splitChar_length _ t⟩
  · simp [finalsOf, segConcat, List.append_assoc]
  · simp [finalsOf, wordSum]

/-- Witness for C9 amended at a concrete reachable state. -/
theorem C9_word_count_amended_witness :
    (getRec (run CONFIG init [.startCmd])
        (run CONFIG init [.startCmd]).activeInstance = some ⟨0, true⟩) ∧
    ((⟨0, true⟩ : RecInstance).lastResultIndex = 0) ∧
    ((step CONFIG (run CONFIG init [.startCmd])
        (.onresult (run CONFIG init [.startCmd]).activeInstance [⟨['h', 'i'], true⟩])).finalText =
      (run CONFIG init [.startCmd]).finalText ++ ['h', 'i'] ++ [' '] ∧
     (step CONFIG (run CONFIG init [.startCmd])
        (.onresult (run CONFIG init [.startCmd]).activeInstance [⟨['h', 'i'], true⟩])).wordCount =
      (run CONFIG init [.startCmd]).wordCount + (splitSpace ['h', 'i']).length ∧
     (splitSpace ['h', 'i']).length = (['h', 'i'].countP (fun c => c = ' ')) + 1) :=
  ⟨by decide, by decide,
   C9_word_count_amended CONFIG (run CONFIG init [.startCmd]) ['h', 'i'] ⟨0, true⟩
     (by decide) (by decide)⟩

/-- C8 counterexample: after the switch tick has started instance B (overlap
open, A still active), an onend from the inactive instance B schedules no
restart: the pending list still holds only the overlap hand-off, B stays
ended, and no further engine start is invoked. -/
theorem C8_inactive_end_cex :
    (run CONFIG init [.startCmd, .tick 0, .onend .B]).pending =
      [⟨1, 2000, .overlap .A .B⟩] ∧
    getRec (run CONFIG init [.startCmd, .tick 0, .onend .B]) .B = some ⟨0, false⟩ ∧
    (run CONFIG init [.startCmd, .tick 0, .onend .B]).calls =
      [.start .A, .start .B] := by
  decide

/-- C8 amended: an onend from an instance that is not the current active
instance has no scheduling effect at all: the handler restarts only the
active instance, so the inactive one is merely marked ended and everything
else (pending timers, calls, counters) is unchanged. -/
theorem C8_inactive_end_amended (cfg : Config) (s : S) (inst : InstanceId)
    (rec : RecInstance) (hne : inst ≠ s.activeInstance)
    (hget : getRec s inst = some rec) :
    step cfg s (.onend inst) = setRec s inst { rec with started := false } := by
  show onendStep cfg s inst = _
  unfold onendStep
  rw [hget]
  simp [hne]

/-- Witness for C8 amended at a concrete reachable state. -/
theorem C8_inactive_end_amended_witness :
    (InstanceId.B ≠ (run CONFIG init [.startCmd, .tick 0]).activeInstance) ∧
    (getRec (run CONFIG init [.startCmd, .tick 0]) .B = some ⟨0, true⟩) ∧
    (step CONFIG (run CONFIG init [.startCmd, .tick 0]) (.onend .B) =
      setRec (run CONFIG init [.startCmd, .tick 0]) .B
        { (⟨0, true⟩ : RecInstance) with started := false }) :=
  ⟨by decide, by decide,
   C8_inactive_end_amended CONFIG (run CONFIG init [.startCmd, .tick 0]) .B ⟨0, true⟩
     (by decide) (by decide)⟩

/-- C6 counterexample: startRec has no already-recording guard.  After one
completed switch (recording, active instance B, one switch counted), a
second startRec resets the switch counter to zero and the active instance
back to A; and when instance A is not engine-open at that moment, it also
arms a second switch interval without clearing the first, so two live
switch timers exist. -/
theorem C6_start_not_noop_cex :
    (run CONFIG init [.startCmd, .tick 0, .fire 1]).isRecording = true ∧
    (run CONFIG init [.startCmd, .tick 0, .fire 1]).instanceSwitches = 1 ∧
    (run CONFIG init [.startCmd, .tick 0, .fire 1]).activeInstance = .B ∧
    (run CONFIG init [.startCmd, .tick 0, .fire 1, .startCmd]).instanceSwitches = 0 ∧
    (run CONFIG init [.startCmd, .tick 0, .fire 1, .startCmd]).activeInstance = .A ∧
    (run CONFIG init [.startCmd, .tick 0, .fire 1, .onend .A, .startCmd]).intervals.length = 2 := by
  decide

/-- C6 amended: startRec called while already recording is not a no-op: it
always resets the active instance to A and the switch counter to zero; when
the engine start of instance A succeeds (A not currently open) it arms an
additional switch interval without cancelling the previous one, and only
when that start throws (A already open) is no new interval armed. -/
theorem C6_start_while_recording_amended (cfg : Config) (s : S) (ra : RecInstance)
    (_hrec : s.isRecording = true) (hA : s.recA = some ra) :
    (startRec cfg s).isRecording = true ∧
    (startRec cfg s).activeInstance = .A ∧
    (startRec cfg s).instanceSwitches = 0 ∧
    (startRec cfg s).intervals =
      (if ra.started then s.intervals
       else s.intervals ++ [(s.nextHandle, cfg.maxSessionTime)]) ∧
    (startRec cfg s).switchTimer =
      (if ra.started then s.switchTimer else some s.nextHandle) := by
  unfold startRec
  rw [hA]
  by_cases h : ra.started
  · simp [h]
  · simp [h]

/-- Witness for C6 amended at a concrete reachable state (recording after a
completed switch, instance A still engine-open, so the second start throws
and only the resets are observable). -/
theorem C6_start_while_recording_amended_witness :
    ((run CONFIG init [.startCmd, .tick 0, .fire 1]).isRecording = true) ∧
    ((run CONFIG init [.startCmd, .tick 0, .fire 1]).recA = some ⟨0, true⟩) ∧
    ((startRec CONFIG (run CONFIG init [.startCmd, .tick 0, .fire 1])).isRecording = true ∧
     (startRec CONFIG (run CONFIG init [.startCmd, .tick 0, .fire 1])).activeInstance = .A ∧
     (startRec CONFIG (run CONFIG init [.startCmd, .tick 0, .fire 1])).instanceSwitches = 0 ∧
     (startRec CONFIG (run CONFIG init [.startCmd, .tick 0, .fire 1])).intervals =
       (if (⟨0, true⟩ : RecInstance).started
        then (run CONFIG init [.startCmd, .tick 0, .fire 1]).intervals
        else (run CONFIG init [.startCmd, .tick 0, .fire 1]).intervals ++
          [((run CONFIG init [.startCmd, .tick 0, .fire 1]).nextHandle, CONFIG.maxSessionTime)]) ∧
     (startRec CONFIG (run CONFIG init [.startCmd, .tick 0, .fire 1])).switchTimer =
       (if (⟨0, true⟩ : RecInstance).started
        then (run CONFIG init [.startCmd, .tick 0, .fire 1]).switchTimer
        else some (run CONFIG init [.startCmd, .tick 0, .fire 1]).nextHandle)) :=
  ⟨by decide, by decide,
   C6_start_while_recording_amended CONFIG (run CONFIG init [.startCmd, .tick 0, .fire 1])
     ⟨0, true⟩ (by decide) (by decide)⟩

lemma runGrow_spec (cfg : Config) (inst : InstanceId) :
    ∀ (exts : List (List SpeechResult)) (s : S) (cur : List SpeechResult)
      (rec : RecInstance),
      getRec s inst = some rec → inst = s.activeInstance →
      rec.lastResultIndex ≤ cur.length →
      (runGrow cfg inst s cur exts).sink =
        s.sink ++ finalsOf ((cur ++ exts.flatten).drop rec.lastResultIndex) ∧
      getRec (runGrow cfg inst s cur exts) inst =
        some ⟨(cur ++ exts.flatten).length, rec.started⟩ := by
  intro exts
  induction exts with
  | nil =>
    intro s cur rec hget hact hle
    unfold runGrow
    rw [step_onresult, onresult_active s inst cur rec hget hact]
    constructor
    · simp
    · rw [getRec_setRec_same]
      simp
  | cons e es ih =>
    intro s cur rec hget hact hle
    unfold runGrow
    rw [step_onresult, onresult_active s inst cur rec hget hact]
    have hget1 : getRec
        (setRec
          { s with
            finalText := s.finalText ++ segConcat (finalsOf (cur.drop rec.lastResultIndex)),
            wordCount := s.wordCount + wordSum (finalsOf (cur.drop rec.lastResultIndex)),
            sink := s.sink ++ finalsOf (cur.drop rec.lastResultIndex) }
          inst { rec with lastResultIndex := cur.length }) inst =
        some { rec with lastResultIndex := cur.length } := getRec_setRec_same _ _ _
    have hact1 : inst =
        (setRec
          { s with
            finalText := s.finalText ++ segConcat (finalsOf (cur.drop rec.lastResultIndex)),
            wordCount := s.wordCount + wordSum (finalsOf (cur.drop rec.lastResultIndex)),
            sink := s.sink ++ finalsOf (cur.drop rec.lastResultIndex) }
          inst { rec with lastResultIndex := cur.length }).activeInstance := by
      rw [setRec_activeInstance]
      exact hact
    have hle1 : ({ rec with lastResultIndex := cur.length } : RecInstance).lastResultIndex ≤
        (cur ++ e).length := by
      simp
    obtain ⟨hsink, hcursor⟩ := ih _ (cur ++ e) _ hget1 hact1 hle1
    refine ⟨?_, ?_⟩
    · rw [hsink]
      simp only [setRec_sink]
      simp [List.flatten_cons, List.drop_append_of_le_length hle, finalsOf_append,
        List.append_assoc, List.drop_left]
    · rw [hcursor]
      simp [List.flatten_cons, List.append_assoc]

lemma getRec_congr (s t : S) (h1 : s.recA = t.recA) (h2 : s.recB = t.recB)
    (i : InstanceId) : getRec s i = getRec t i := by
  cases i <;> simp [getRec, h1, h2]

lemma onend_active (cfg : Config) (s : S) (inst : InstanceId) (rec : RecInstance)
    (hget : getRec s inst = some rec) (hrec : s.isRecording = true)
    (hact : inst = s.activeInstance) :
    onendStep cfg s inst =
      { setRec s inst { rec with started := false } with
        pending := s.pending ++ [⟨s.nextHandle, cfg.minRestartDelay, .restart inst⟩],
        nextHandle := s.nextHandle + 1 } := by
  unfold onendStep
  rw [hget]
  simp [hrec, hact]

lemma fireRestart_spec (s : S) (inst : InstanceId) (rec : RecInstance)
    (hrec : s.isRecording = true) (hget : getRec s inst = some rec)
    (hst : rec.started = false) :
    fireRestart s inst =
      setRec { s with calls := s.calls ++ [.start inst] } inst
        { rec with started := true } := by
  unfold fireRestart
  rw [hrec, hget]
  simp [hst]

lemma fireOverlap_spec (s : S) (oldI newI : InstanceId) (rec : RecInstance)
    (hget : getRec s oldI = some rec) :
    fireOverlap s oldI newI =
      { s with activeInstance := newI,
               instanceSwitches := s.instanceSwitches + 1,
               calls := s.calls ++ [.stop oldI] } := by
  unfold fireOverlap
  have h2 : getRec
      { s with activeInstance := newI, instanceSwitches := s.instanceSwitches + 1 }
      oldI = some rec := by
    cases oldI <;> exact hget
  simp only [h2]

lemma fireTimeout_tail_restart (s : S) (l : List Pending) (h d : Nat)
    (inst : InstanceId)
    (hp : s.pending = l ++ [⟨h, d, .restart inst⟩])
    (hl : ∀ p ∈ l, p.handle ≠ h) :
    fireTimeout s h = fireRestart { s with pending := l } inst := by
  unfold fireTimeout
  rw [hp, find?_append_singleton_fresh l h d _ hl,
    eraseP_append_singleton_fresh l h d _ hl]

lemma fireTimeout_tail_overlap (s : S) (l : List Pending) (h d : Nat)
    (oldI newI : InstanceId)
    (hp : s.pending = l ++ [⟨h, d, .overlap oldI newI⟩])
    (hl : ∀ p ∈ l, p.handle ≠ h) :
    fireTimeout s h = fireOverlap { s with pending := l } oldI newI := by
  unfold fireTimeout
  rw [hp, find?_append_singleton_fresh l h d _ hl,
    eraseP_append_singleton_fresh l h d _ hl]

lemma intervalTick_fires (cfg : Config) (s : S) (h d : Nat)
    (hmem : (h, d) ∈ s.intervals) (hrec : s.isRecording = true) :
    intervalTick cfg s h = switchInstances cfg s := by
  unfold intervalTick
  have hany : s.intervals.any (fun p => p.1 = h) = true :=
    List.any_eq_true.mpr ⟨(h, d), hmem, by simp⟩
  rw [hany, hrec]
  simp

lemma switchInstances_overlap (cfg : Config) (s : S) (rb : RecInstance)
    (hrec : s.isRecording = true)
    (hB : getRec s s.activeInstance.other = some rb)
    (hbs : rb.started = false) :
    switchInstances cfg s =
      { setRec { s with calls := s.calls ++ [.start s.activeInstance.other] }
          s.activeInstance.other { rb with started := true } with
        pending := s.pending ++ [⟨s.nextHandle, cfg.overlapTime,
          .overlap s.activeInstance s.activeInstance.other⟩],
        nextHandle := s.nextHandle + 1 } := by
  unfold switchInstances
  rw [hrec]
  simp only [if_true]
  rw [hB]
  simp [hbs]

/-- C3: per-instance result cursor: across a sequence of onresult callbacks
that replay a growing cumulative result list, the instance processes only
the entries at or after its stored cursor, then advances the cursor to the
delivered length; hence every final entry is forwarded exactly once (the
sink grows by exactly the finals of the new entries, with no repetition)
and the cursor never decreases. -/
theorem C3_result_cursor (cfg : Config) (inst : InstanceId) (s : S)
    (cur : List SpeechResult) (exts : List (List SpeechResult))
    (rec : RecInstance)
    (hget : getRec s inst = some rec) (hact : inst = s.activeInstance)
    (hle : rec.lastResultIndex ≤ cur.length) :
    (runGrow cfg inst s cur exts).sink =
      s.sink ++ finalsOf ((cur ++ exts.flatten).drop rec.lastResultIndex) ∧
    getRec (runGrow cfg inst s cur exts) inst =
      some ⟨(cur ++ exts.flatten).length, rec.started⟩ ∧
    rec.lastResultIndex ≤ (cur ++ exts.flatten).length := by
  obtain ⟨h1, h2⟩ := runGrow_spec cfg inst exts s cur rec hget hact hle
  refine ⟨h1, h2, le_trans hle ?_⟩
  simp

/-- Witness for C3 at a concrete reachable state: instance A first receives
one final, then the engine replays it together with one interim and one new
final; only the two finals reach the sink, each exactly once. -/
theorem C3_result_cursor_witness :
    (getRec (run CONFIG init [.startCmd]) .A = some ⟨0, true⟩) ∧
    (InstanceId.A = (run CONFIG init [.startCmd]).activeInstance) ∧
    ((⟨0, true⟩ : RecInstance).lastResultIndex ≤
      ([⟨['h', 'i'], true⟩] : List SpeechResult).length) ∧
    ((runGrow CONFIG .A (run CONFIG init [.startCmd]) [⟨['h', 'i'], true⟩]
        [[⟨['y', 'o'], false⟩, ⟨['o', 'k'], true⟩]]).sink =
      (run CONFIG init [.startCmd]).sink ++
        finalsOf ((([⟨['h', 'i'], true⟩] : List SpeechResult) ++
          ([[⟨['y', 'o'], false⟩, ⟨['o', 'k'], true⟩]] :
            List (List SpeechResult)).flatten).drop
          (⟨0, true⟩ : RecInstance).lastResultIndex) ∧
     getRec (runGrow CONFIG .A (run CONFIG init [.startCmd]) [⟨['h', 'i'], true⟩]
        [[⟨['y', 'o'], false⟩, ⟨['o', 'k'], true⟩]]) .A =
      some ⟨(([⟨['h', 'i'], true⟩] : List SpeechResult) ++
        ([[⟨['y', 'o'], false⟩, ⟨['o', 'k'], true⟩]] :
          List (List SpeechResult)).flatten).length,
        (⟨0, true⟩ : RecInstance).started⟩ ∧
     (⟨0, true⟩ : RecInstance).lastResultIndex ≤
      (([⟨['h', 'i'], true⟩] : List SpeechResult) ++
        ([[⟨['y', 'o'], false⟩, ⟨['o', 'k'], true⟩]] :
          List (List SpeechResult)).flatten).length) :=
  ⟨by decide, by decide, by decide,
   C3_result_cursor CONFIG .A (run CONFIG init [.startCmd]) [⟨['h', 'i'], true⟩]
     [[⟨['y', 'o'], false⟩, ⟨['o', 'k'], true⟩]] ⟨0, true⟩
     (by decide) (by decide) (by decide)⟩

/-- C7: unexpected end of the active instance: onerror with a non-aborted
code changes nothing, the following onend (while recording) schedules a
restart of the same instance after minRestartDelay, and when that timeout
fires the same instance is started again; neither the active instance nor
the switch counter is changed anywhere on this recovery path. -/
theorem C7_unexpected_end_restart (cfg : Config) (s : S) (inst : InstanceId)
    (code : String) (rec : RecInstance)
    (hrec : s.isRecording = true)
    (hact : inst = s.activeInstance)
    (hget : getRec s inst = some rec)
    (_hcode : code ≠ "aborted")
    (hfresh : ∀ p ∈ s.pending, p.handle ≠ s.nextHandle) :
    step cfg s (.onerror inst code) = s ∧
    (step cfg (step cfg s (.onerror inst code)) (.onend inst)).pending =
      s.pending ++ [⟨s.nextHandle, cfg.minRestartDelay, .restart inst⟩] ∧
    (step cfg (step cfg s (.onerror inst code)) (.onend inst)).activeInstance =
      s.activeInstance ∧
    (step cfg (step cfg s (.onerror inst code)) (.onend inst)).instanceSwitches =
      s.instanceSwitches ∧
    (step cfg (step cfg (step cfg s (.onerror inst code)) (.onend inst))
        (.fire s.nextHandle)).calls = s.calls ++ [.start inst] ∧
    getRec (step cfg (step cfg (step cfg s (.onerror inst code)) (.onend inst))
        (.fire s.nextHandle)) inst = some ⟨rec.lastResultIndex, true⟩ ∧
    (step cfg (step cfg (step cfg s (.onerror inst code)) (.onend inst))
        (.fire s.nextHandle)).activeInstance = s.activeInstance ∧
    (step cfg (step cfg (step cfg s (.onerror inst code)) (.onend inst))
        (.fire s.nextHandle)).instanceSwitches = s.instanceSwitches ∧
    (step cfg (step cfg (step cfg s (.onerror inst code)) (.onend inst))
        (.fire s.nextHandle)).pending = s.pending := by
  rw [step_onerror]
  rw [step_onend, onend_active cfg s inst rec hget hrec hact]
  rw [step_fire]
  have hfire : fireTimeout
      { setRec s inst { rec with started := false } with
        pending := s.pending ++ [(⟨s.nextHandle, cfg.minRestartDelay, .restart inst⟩ : Pending)],
        nextHandle := s.nextHandle + 1 } s.nextHandle =
      fireRestart
        { { setRec s inst { rec with started := false } with
            pending := s.pending ++ [(⟨s.nextHandle, cfg.minRestartDelay, .restart inst⟩ : Pending)],
            nextHandle := s.nextHandle + 1 } with pending := s.pending } inst := by
    exact fireTimeout_tail_restart _ s.pending s.nextHandle cfg.minRestartDelay inst rfl hfresh
  rw [hfire]
  have hgetT : getRec
      { { setRec s inst { rec with started := false } with
          pending := s.pending ++ [(⟨s.nextHandle, cfg.minRestartDelay, .restart inst⟩ : Pending)],
          nextHandle := s.nextHandle + 1 } with pending := s.pending } inst =
      some { rec with started := false } := by
    cases inst <;> simp [setRec, getRec]
  have hrecT : ({ { setRec s inst { rec with started := false } with
      pending := s.pending ++ [(⟨s.nextHandle, cfg.minRestartDelay, .restart inst⟩ : Pending)],
      nextHandle := s.nextHandle + 1 } with pending := s.pending } : S).isRecording =
      true := by
    simpa using hrec
  rw [fireRestart_spec _ inst { rec with started := false } hrecT hgetT rfl]
  refine ⟨rfl, by simp, by simp [hact], by simp, by simp, ?_, by simp [hact], by simp, by simp⟩
  rw [getRec_setRec_same]

/-- Witness for C7 at a concrete reachable state: instance A, active and
recording, errors and ends; the restart timeout then fires. -/
theorem C7_unexpected_end_restart_witness :
    ((run CONFIG init [.startCmd]).isRecording = true) ∧
    (InstanceId.A = (run CONFIG init [.startCmd]).activeInstance) ∧
    (getRec (run CONFIG init [.startCmd]) .A = some ⟨0, true⟩) ∧
    (("network" : String) ≠ "aborted") ∧
    (∀ p ∈ (run CONFIG init [.startCmd]).pending,
      p.handle ≠ (run CONFIG init [.startCmd]).nextHandle) ∧
    (step CONFIG (run CONFIG init [.startCmd]) (.onerror .A "network") =
      run CONFIG init [.startCmd] ∧
     (step CONFIG (step CONFIG (run CONFIG init [.startCmd]) (.onerror .A "network"))
        (.onend .A)).pending =
      (run CONFIG init [.startCmd]).pending ++
        [⟨(run CONFIG init [.startCmd]).nextHandle, CONFIG.minRestartDelay, .restart .A⟩] ∧
     (step CONFIG (step CONFIG (run CONFIG init [.startCmd]) (.onerror .A "network"))
        (.onend .A)).activeInstance = (run CONFIG init [.startCmd]).activeInstance ∧
     (step CONFIG (step CONFIG (run CONFIG init [.startCmd]) (.onerror .A "network"))
        (.onend .A)).instanceSwitches = (run CONFIG init [.startCmd]).instanceSwitches ∧
     (step CONFIG (step CONFIG (step CONFIG (run CONFIG init [.startCmd])
        (.onerror .A "network")) (.onend .A))
        (.fire (run CONFIG init [.startCmd]).nextHandle)).calls =
      (run CONFIG init [.startCmd]).calls ++ [.start .A] ∧
     getRec (step CONFIG (step CONFIG (step CONFIG (run CONFIG init [.startCmd])
        (.onerror .A "network")) (.onend .A))
        (.fire (run CONFIG init [.startCmd]).nextHandle)) .A =
      some ⟨(⟨0, true⟩ : RecInstance).lastResultIndex, true⟩ ∧
     (step CONFIG (step CONFIG (step CONFIG (run CONFIG init [.startCmd])
        (.onerror .A "network")) (.onend .A))
        (.fire (run CONFIG init [.startCmd]).nextHandle)).activeInstance =
      (run CONFIG init [.startCmd]).activeInstance ∧
     (step CONFIG (step CONFIG (step CONFIG (run CONFIG init [.startCmd])
        (.onerror .A "network")) (.onend .A))
        (.fire (run CONFIG init [.startCmd]).nextHandle)).instanceSwitches =
      (run CONFIG init [.startCmd]).instanceSwitches ∧
     (step CONFIG (step CONFIG (step CONFIG (run CONFIG init [.startCmd])
        (.onerror .A "network")) (.onend .A))
        (.fire (run CONFIG init [.startCmd]).nextHandle)).pending =
      (run CONFIG init [.startCmd]).pending) :=
  ⟨by decide, by decide, by decide, by decide, by decide,
   C7_unexpected_end_restart CONFIG (run CONFIG init [.startCmd]) .A "network" ⟨0, true⟩
     (by decide) (by decide) (by decide) (by decide) (by decide)⟩

lemma getRec_update3 (x : S) (pend : List Pending) (n : Nat) (i : InstanceId) :
    getRec { x with pending := pend, nextHandle := n } i = getRec x i := by
  cases i <;> rfl

lemma getRec_update_calls (x : S) (c : List EngineCall) (i : InstanceId) :
    getRec { x with calls := c } i = getRec x i := by
  cases i <;> rfl

lemma getRec_update_pending (x : S) (pend : List Pending) (i : InstanceId) :
    getRec { x with pending := pend } i = getRec x i := by
  cases i <;> rfl

/-- C1: proactive switch protocol: while recording, when the switch interval
fires the inactive instance is started and the hand-off is scheduled with
delay overlapTime while the active instance, the switch counter and the
buffer are untouched; a final delivered by the still-active old instance
during the overlap window is appended, a final delivered by the not yet
active new instance is discarded; when the hand-off timeout fires the
active instance flips to the new one, the switch counter grows by exactly
one, and stop (not abort) is invoked on the old instance. -/
theorem C1_switch_protocol (cfg : Config) (s : S) (h d : Nat)
    (ra rb : RecInstance) (rsOld rsNew : List SpeechResult)
    (hrec : s.isRecording = true)
    (hA : getRec s s.activeInstance = some ra)
    (hB : getRec s s.activeInstance.other = some rb)
    (hbs : rb.started = false)
    (htick : (h, d) ∈ s.intervals)
    (hfresh : ∀ p ∈ s.pending, p.handle ≠ s.nextHandle) :
    getRec (step cfg s (.tick h)) s.activeInstance.other =
      some ⟨rb.lastResultIndex, true⟩ ∧
    (step cfg s (.tick h)).calls = s.calls ++ [.start s.activeInstance.other] ∧
    (step cfg s (.tick h)).activeInstance = s.activeInstance ∧
    (step cfg s (.tick h)).instanceSwitches = s.instanceSwitches ∧
    (step cfg s (.tick h)).pending = s.pending ++
      [⟨s.nextHandle, cfg.overlapTime,
        .overlap s.activeInstance s.activeInstance.other⟩] ∧
    (step cfg (step cfg s (.tick h)) (.onresult s.activeInstance rsOld)).finalText =
      (step cfg s (.tick h)).finalText ++
        segConcat (finalsOf (rsOld.drop ra.lastResultIndex)) ∧
    (step cfg (step cfg s (.tick h)) (.onresult s.activeInstance.other rsNew)).finalText =
      (step cfg s (.tick h)).finalText ∧
    (step cfg (step cfg s (.tick h)) (.onresult s.activeInstance.other rsNew)).sink =
      (step cfg s (.tick h)).sink ∧
    (step cfg (step cfg s (.tick h)) (.fire s.nextHandle)).activeInstance =
      s.activeInstance.other ∧
    (step cfg (step cfg s (.tick h)) (.fire s.nextHandle)).instanceSwitches =
      s.instanceSwitches + 1 ∧
    (step cfg (step cfg s (.tick h)) (.fire s.nextHandle)).calls =
      (step cfg s (.tick h)).calls ++ [.stop s.activeInstance] ∧
    (step cfg (step cfg s (.tick h)) (.fire s.nextHandle)).pending = s.pending := by
  rw [step_tick, intervalTick_fires cfg s h d htick hrec]
  have hsw := switchInstances_overlap cfg s rb hrec hB hbs
  have hp : (switchInstances cfg s).pending = s.pending ++
      [(⟨s.nextHandle, cfg.overlapTime,
        .overlap s.activeInstance s.activeInstance.other⟩ : Pending)] := by
    rw [hsw]
  have hcalls : (switchInstances cfg s).calls =
      s.calls ++ [.start s.activeInstance.other] := by
    rw [hsw]; simp
  have hact1 : (switchInstances cfg s).activeInstance = s.activeInstance := by
    rw [hsw]; simp
  have hswi : (switchInstances cfg s).instanceSwitches = s.instanceSwitches := by
    rw [hsw]; simp
  have hgetnw : getRec (switchInstances cfg s) s.activeInstance.other =
      some ⟨rb.lastResultIndex, true⟩ := by
    rw [hsw, getRec_update3, getRec_setRec_same]
  have hgetold : getRec (switchInstances cfg s) s.activeInstance = some ra := by
    rw [hsw, getRec_update3, getRec_setRec_ne _ _ (Ne.symm (other_ne _)),
      getRec_update_calls]
    exact hA
  have hne : s.activeInstance.other ≠ (switchInstances cfg s).activeInstance := by
    rw [hact1]; exact other_ne _
  have hfire := fireTimeout_tail_overlap (switchInstances cfg s) s.pending
    s.nextHandle cfg.overlapTime s.activeInstance s.activeInstance.other hp hfresh
  have hgetT : getRec { switchInstances cfg s with pending := s.pending }
      s.activeInstance = some ra := by
    rw [getRec_update_pending]; exact hgetold
  have hov := fireOverlap_spec { switchInstances cfg s with pending := s.pending }
    s.activeInstance s.activeInstance.other ra hgetT
  refine ⟨hgetnw, hcalls, hact1, hswi, hp, ?_, ?_, ?_, ?_, ?_, ?_, ?_⟩
  · rw [step_onresult, onresult_active _ _ rsOld ra hgetold hact1.symm]
    simp
  · rw [step_onresult, onresult_inactive _ _ rsNew _ hgetnw hne]
    simp
  · rw [step_onresult, onresult_inactive _ _ rsNew _ hgetnw hne]
    simp
  · rw [step_fire, hfire, hov]
  · rw [step_fire, hfire, hov]
    simp [hswi]
  · rw [step_fire, hfire, hov]
  · rw [step_fire, hfire, hov]

/-- Witness for C1 at a concrete reachable state: the switch interval fires
right after startRec, instance B is started, a final by A is appended, a
final by B is discarded, the hand-off flips to B and stops A. -/
theorem C1_switch_protocol_witness :
    ((run CONFIG init [.startCmd]).isRecording = true) ∧
    (getRec (run CONFIG init [.startCmd])
      (run CONFIG init [.startCmd]).activeInstance = some ⟨0, true⟩) ∧
    (getRec (run CONFIG init [.startCmd])
      (run CONFIG init [.startCmd]).activeInstance.other = some ⟨0, false⟩) ∧
    ((⟨0, false⟩ : RecInstance).started = false) ∧
    ((0, 55000) ∈ (run CONFIG init [.startCmd]).intervals) ∧
    (∀ p ∈ (run CONFIG init [.startCmd]).pending,
      p.handle ≠ (run CONFIG init [.startCmd]).nextHandle) ∧
    (getRec (step CONFIG (run CONFIG init [.startCmd]) (.tick 0))
        (run CONFIG init [.startCmd]).activeInstance.other = some ⟨0, true⟩ ∧
     (step CONFIG (run CONFIG init [.startCmd]) (.tick 0)).calls =
      (run CONFIG init [.startCmd]).calls ++
        [.start (run CONFIG init [.startCmd]).activeInstance.other] ∧
     (step CONFIG (run CONFIG init [.startCmd]) (.tick 0)).activeInstance =
      (run CONFIG init [.startCmd]).activeInstance ∧
     (step CONFIG (run CONFIG init [.startCmd]) (.tick 0)).instanceSwitches =
      (run CONFIG init [.startCmd]).instanceSwitches ∧
     (step CONFIG (run CONFIG init [.startCmd]) (.tick 0)).pending =
      (run CONFIG init [.startCmd]).pending ++
        [⟨(run CONFIG init [.startCmd]).nextHandle, CONFIG.overlapTime,
          .overlap (run CONFIG init [.startCmd]).activeInstance
            (run CONFIG init [.startCmd]).activeInstance.other⟩] ∧
     (step CONFIG (step CONFIG (run CONFIG init [.startCmd]) (.tick 0))
        (.onresult (run CONFIG init [.startCmd]).activeInstance
          [⟨['h', 'i'], true⟩])).finalText =
      (step CONFIG (run CONFIG init [.startCmd]) (.tick 0)).finalText ++
        segConcat (finalsOf (([⟨['h', 'i'], true⟩] : List SpeechResult).drop
          (⟨0, true⟩ : RecInstance).lastResultIndex)) ∧
     (step CONFIG (step CONFIG (run CONFIG init [.startCmd]) (.tick 0))
        (.onresult (run CONFIG init [.startCmd]).activeInstance.other
          [⟨['y', 'o'], true⟩])).finalText =
      (step CONFIG (run CONFIG init [.startCmd]) (.tick 0)).finalText ∧
     (step CONFIG (step CONFIG (run CONFIG init [.startCmd]) (.tick 0))
        (.onresult (run CONFIG init [.startCmd]).activeInstance.other
          [⟨['y', 'o'], true⟩])).sink =
      (step CONFIG (run CONFIG init [.startCmd]) (.tick 0)).sink ∧
     (step CONFIG (step CONFIG (run CONFIG init [.startCmd]) (.tick 0))
        (.fire (run CONFIG init [.startCmd]).nextHandle)).activeInstance =
      (run CONFIG init [.startCmd]).activeInstance.other ∧
     (step CONFIG (step CONFIG (run CONFIG init [.startCmd]) (.tick 0))
        (.fire (run CONFIG init [.startCmd]).nextHandle)).instanceSwitches =
      (run CONFIG init [.startCmd]).instanceSwitches + 1 ∧
     (step CONFIG (step CONFIG (run CONFIG init [.startCmd]) (.tick 0))
        (.fire (run CONFIG init [.startCmd]).nextHandle)).calls =
      (step CONFIG (run CONFIG init [.startCmd]) (.tick 0)).calls ++
        [.stop (run CONFIG init [.startCmd]).activeInstance] ∧
     (step CONFIG (step CONFIG (run CONFIG init [.startCmd]) (.tick 0))
        (.fire (run CONFIG init [.startCmd]).nextHandle)).pending =
      (run CONFIG init [.startCmd]).pending) :=
  ⟨by decide, by decide, by decide, by decide, by decide, by decide,
   C1_switch_protocol CONFIG (run CONFIG init [.startCmd]) 0 55000
     ⟨0, true⟩ ⟨0, false⟩ [⟨['h', 'i'], true⟩] [⟨['y', 'o'], true⟩]
     (by decide) (by decide) (by decide) (by decide) (by decide) (by decide)⟩

lemma stopRec_intervals (s : S) :
    (stopRec s).intervals = s.intervals.filter (fun p => ¬ some p.1 = s.switchTimer) := by
  simp only [stopRec]
  split_ifs <;> rfl

/-- C4 counterexample: stopRec leaves the pending overlap hand-off timeout
scheduled; after stopRec the timeout fires and still flips the active
instance to B and increments the switch counter, an observable effect of a
previously scheduled timer after stop returned. -/
theorem C4_stop_cancel_cex :
    (run CONFIG init [.startCmd, .tick 0, .stopCmd]).isRecording = false ∧
    (run CONFIG init [.startCmd, .tick 0, .stopCmd]).pending =
      [⟨1, 2000, .overlap .A .B⟩] ∧
    (run CONFIG init [.startCmd, .tick 0, .stopCmd]).activeInstance = .A ∧
    (run CONFIG init [.startCmd, .tick 0, .stopCmd]).instanceSwitches = 0 ∧
    (run CONFIG init [.startCmd, .tick 0, .stopCmd, .fire 1]).activeInstance = .B ∧
    (run CONFIG init [.startCmd, .tick 0, .stopCmd, .fire 1]).instanceSwitches = 1 := by
  decide

/-- C4 amended: stopRec sets isRecording to false and cancels the switch
interval held in switchTimer, but it cancels no pending one-shot timeout.
A pending restart timeout that fires after stop has no observable effect
beyond leaving the pending list (its callback rechecks isRecording), but a
pending overlap hand-off timeout that fires after stop still flips the
active instance, increments the switch counter and invokes stop on the
captured old instance. -/
theorem C4_stop_cancel_amended (cfg : Config) (s t u : S)
    (h1 d1 h2 d2 : Nat) (inst oldI newI : InstanceId)
    (rest1 rest2 : List Pending) (r : RecInstance)
    (ht : t.isRecording = false)
    (htp : t.pending = rest1 ++ [⟨h1, d1, .restart inst⟩])
    (htf : ∀ p ∈ rest1, p.handle ≠ h1)
    (_hu : u.isRecording = false)
    (hup : u.pending = rest2 ++ [⟨h2, d2, .overlap oldI newI⟩])
    (huf : ∀ p ∈ rest2, p.handle ≠ h2)
    (hur : getRec u oldI = some r) :
    (stopRec s).isRecording = false ∧
    (stopRec s).pending = s.pending ∧
    (∀ q ∈ (stopRec s).intervals, ¬ some q.1 = s.switchTimer) ∧
    step cfg t (.fire h1) = { t with pending := rest1 } ∧
    (step cfg u (.fire h2)).activeInstance = newI ∧
    (step cfg u (.fire h2)).instanceSwitches = u.instanceSwitches + 1 ∧
    (step cfg u (.fire h2)).calls = u.calls ++ [.stop oldI] ∧
    (step cfg u (.fire h2)).pending = rest2 := by
  have hro := fireTimeout_tail_overlap u rest2 h2 d2 oldI newI hup huf
  have hgetT : getRec { u with pending := rest2 } oldI = some r := by
    rw [getRec_update_pending]; exact hur
  have hov := fireOverlap_spec { u with pending := rest2 } oldI newI r hgetT
  refine ⟨stopRec_isRecording s, stopRec_pending s, ?_, ?_, ?_, ?_, ?_, ?_⟩
  · intro q hq
    rw [stopRec_intervals] at hq
    simpa using (List.mem_filter.mp hq).2
  · rw [step_fire, fireTimeout_tail_restart t rest1 h1 d1 inst htp htf]
    simp [fireRestart, ht]
  · rw [step_fire, hro, hov]
  · rw [step_fire, hro, hov]
  · rw [step_fire, hro, hov]
  · rw [step_fire, hro, hov]

/-- Witness for C4 amended at concrete reachable states: a stopped session
with a pending restart timeout (instance A ended, then stop) and a stopped
session with a pending overlap hand-off timeout (switch tick, then stop). -/
theorem C4_stop_cancel_amended_witness :
    ((run CONFIG init [.startCmd, .onend .A, .stopCmd]).isRecording = false) ∧
    ((run CONFIG init [.startCmd, .onend .A, .stopCmd]).pending =
      [] ++ [⟨1, 50, .restart .A⟩]) ∧
    (∀ p ∈ ([] : List Pending), p.handle ≠ 1) ∧
    ((run CONFIG init [.startCmd, .tick 0, .stopCmd]).isRecording = false) ∧
    ((run CONFIG init [.startCmd, .tick 0, .stopCmd]).pending =
      [] ++ [⟨1, 2000, .overlap .A .B⟩]) ∧
    (∀ p ∈ ([] : List Pending), p.handle ≠ 1) ∧
    (getRec (run CONFIG init [.startCmd, .tick 0, .stopCmd]) .A = some ⟨0, true⟩) ∧
    ((stopRec (run CONFIG init [.startCmd])).isRecording = false ∧
     (stopRec (run CONFIG init [.startCmd])).pending =
      (run CONFIG init [.startCmd]).pending ∧
     (∀ q ∈ (stopRec (run CONFIG init [.startCmd])).intervals,
       ¬ some q.1 = (run CONFIG init [.startCmd]).switchTimer) ∧
     step CONFIG (run CONFIG init [.startCmd, .onend .A, .stopCmd]) (.fire 1) =
      { run CONFIG init [.startCmd, .onend .A, .stopCmd] with pending := [] } ∧
     (step CONFIG (run CONFIG init [.startCmd, .tick 0, .stopCmd])
        (.fire 1)).activeInstance = .B ∧
     (step CONFIG (run CONFIG init [.startCmd, .tick 0, .stopCmd])
        (.fire 1)).instanceSwitches =
      (run CONFIG init [.startCmd, .tick 0, .stopCmd]).instanceSwitches + 1 ∧
     (step CONFIG (run CONFIG init [.startCmd, .tick 0, .stopCmd])
        (.fire 1)).calls =
      (run CONFIG init [.startCmd, .tick 0, .stopCmd]).calls ++ [.stop .A] ∧
     (step CONFIG (run CONFIG init [.startCmd, .tick 0, .stopCmd])
        (.fire 1)).pending = []) :=
  ⟨by decide, by decide, by decide, by decide, by decide, by decide, by decide,
   C4_stop_cancel_amended CONFIG (run CONFIG init [.startCmd])
     (run CONFIG init [.startCmd, .onend .A, .stopCmd])
     (run CONFIG init [.startCmd, .tick 0, .stopCmd])
     1 50 1 2000 .A .A .B [] [] ⟨0, true⟩
     (by decide) (by decide) (by decide) (by decide) (by decide) (by decide)
     (by decide)⟩

lemma endFireCycle_spec (cfg : Config) (s : S) (c : Nat) (b : Bool)
    (hrec : s.isRecording = true) (hact : s.activeInstance = .A)
    (hp : s.pending = []) (hA : getRec s .A = some ⟨c, b⟩) :
    (endFireCycle cfg s).isRecording = true ∧
    (endFireCycle cfg s).activeInstance = .A ∧
    (endFireCycle cfg s).pending = [] ∧
    getRec (endFireCycle cfg s) .A = some ⟨c, true⟩ ∧
    (endFireCycle cfg s).calls = s.calls ++ [.start .A] := by
  unfold endFireCycle
  rw [step_onend, onend_active cfg s .A ⟨c, b⟩ hA hrec hact.symm]
  rw [step_fire]
  have hfire := fireTimeout_tail_restart
    ({ setRec s .A { (⟨c, b⟩ : RecInstance) with started := false } with
       pending := s.pending ++ [(⟨s.nextHandle, cfg.minRestartDelay,
         .restart .A⟩ : Pending)],
       nextHandle := s.nextHandle + 1 } : S)
    s.pending s.nextHandle cfg.minRestartDelay .A rfl
    (by intro p hmem; rw [hp] at hmem; cases hmem)
  rw [hfire]
  have hrecT : ({ { setRec s .A { (⟨c, b⟩ : RecInstance) with started := false } with
      pending := s.pending ++ [(⟨s.nextHandle, cfg.minRestartDelay,
        .restart .A⟩ : Pending)],
      nextHandle := s.nextHandle + 1 } with pending := s.pending } : S).isRecording =
      true := by
    simpa using hrec
  have hgetT : getRec
      ({ { setRec s .A { (⟨c, b⟩ : RecInstance) with started := false } with
        pending := s.pending ++ [(⟨s.nextHandle, cfg.minRestartDelay,
          .restart .A⟩ : Pending)],
        nextHandle := s.nextHandle + 1 } with pending := s.pending } : S) .A =
      some ⟨c, false⟩ := by
    simp [setRec, getRec]
  rw [fireRestart_spec _ .A ⟨c, false⟩ hrecT hgetT rfl]
  refine ⟨by simpa using hrec, by simpa using hact, by simpa using hp, ?_, by simp⟩
  rw [getRec_setRec_same]

lemma endFireCycle_iterate (cfg : Config) (k : Nat) :
    ∀ (s : S) (c : Nat) (b : Bool),
      s.isRecording = true → s.activeInstance = .A → s.pending = [] →
      getRec s .A = some ⟨c, b⟩ →
      ((endFireCycle cfg)^[k] s).isRecording = true ∧
      ((endFireCycle cfg)^[k] s).calls.length = s.calls.length + k := by
  induction k with
  | zero =>
    intro s c b h1 h2 h3 h4
    simpa using h1
  | succ n ih =>
    intro s c b h1 h2 h3 h4
    rw [Function.iterate_succ_apply]
    obtain ⟨e1, e2, e3, e4, e5⟩ := endFireCycle_spec cfg s c b h1 h2 h3 h4
    obtain ⟨g1, g2⟩ := ih (endFireCycle cfg s) c true e1 e2 e3 e4
    refine ⟨g1, ?_⟩
    rw [g2, e5]
    simp [List.length_append]
    omega

/-- C5 counterexample: four consecutive unexpected onend events of the
active instance while recording produce four restarts and no escalation:
the session is still recording afterwards and every onend led to another
engine start; no fatal stop ever happens. -/
theorem C5_bounded_restart_cex :
    (run CONFIG init [.startCmd, .onend .A, .fire 1, .onend .A, .fire 2,
      .onend .A, .fire 3, .onend .A, .fire 4]).isRecording = true ∧
    (run CONFIG init [.startCmd, .onend .A, .fire 1, .onend .A, .fire 2,
      .onend .A, .fire 3, .onend .A, .fire 4]).calls =
      [.start .A, .start .A, .start .A, .start .A, .start .A] := by
  decide

/-- C5 amended: the restart policy is unbounded: for every number k of
consecutive unexpected onend events of the active instance (each followed
by its restart timeout firing), the scheduler performs k engine starts and
the session is still recording; it never escalates to a fatal stop. -/
theorem C5_unbounded_restart_amended (cfg : Config) (s : S) (k c : Nat) (b : Bool)
    (hrec : s.isRecording = true) (hact : s.activeInstance = .A)
    (hp : s.pending = []) (hA : getRec s .A = some ⟨c, b⟩) :
    ((endFireCycle cfg)^[k] s).isRecording = true ∧
    ((endFireCycle cfg)^[k] s).calls.length = s.calls.length + k :=
  endFireCycle_iterate cfg k s c b hrec hact hp hA

/-- Witness for C5 amended at a concrete reachable state with three cycles. -/
theorem C5_unbounded_restart_amended_witness :
    ((run CONFIG init [.startCmd]).isRecording = true) ∧
    ((run CONFIG init [.startCmd]).activeInstance = .A) ∧
    ((run CONFIG init [.startCmd]).pending = []) ∧
    (getRec (run CONFIG init [.startCmd]) .A = some ⟨0, true⟩) ∧
    (((endFireCycle CONFIG)^[3] (run CONFIG init [.startCmd])).isRecording = true ∧
     ((endFireCycle CONFIG)^[3] (run CONFIG init [.startCmd])).calls.length =
      (run CONFIG init [.startCmd]).calls.length + 3) :=
  ⟨by decide, by decide, by decide, by decide,
   C5_unbounded_restart_amended CONFIG (run CONFIG init [.startCmd]) 3 0 true
     (by decide) (by decide) (by decide) (by decide)⟩

end SpeechV2
